import Mathlib

/-!
Verification development for the journalsKe Angular client.

The TypeScript sources are shallowly embedded: each service method that
issues an HTTP request is modelled as a pure function returning an
`ApiRequest` descriptor (method, endpoint, query parameters, body and the
static response shape of the call); component methods become pure functions
from the component's signal state to requests and state updates.  JavaScript
numbers are modelled at integer precision (`Int`), strings by `String`
(character-level algorithms use `List Char`), and `x | null | undefined`
fields by `Option`.
-/

/-- JavaScript truthiness of a nullable string: `null`/`undefined` and the
empty string are falsy. -/
def jsTruthy : Option String → Bool
  | none => false
  | some s => s ≠ ""

/-! ## Character-level string utilities

`String.prototype.trim`, `split(',')` and `join(', ')` are modelled over
`List Char` so that they compute by structural recursion. -/

/-- The core JavaScript whitespace class stripped by `String.prototype.trim`. -/
def isJsWhitespace (c : Char) : Bool :=
  c = ' ' || c = '\t' || c = '\n' || c = '\r' || c = '\x0b' || c = '\x0c'

/-- `String.prototype.trim` over a character list: drop leading and trailing
whitespace. -/
def trimChars (s : List Char) : List Char :=
  ((s.dropWhile isJsWhitespace).reverse.dropWhile isJsWhitespace).reverse

/-- `String.prototype.trim`. -/
def jsTrim (s : String) : String :=
  String.mk (trimChars s.data)

/-- `String.prototype.toLowerCase` (per-character lowering). -/
def jsToLower (s : String) : String :=
  String.mk (s.data.map Char.toLower)

/-- `value.split(',')` over a character list. -/
def splitOnCommaChars : List Char → List (List Char)
  | [] => [[]]
  | c :: rest =>
    match splitOnCommaChars rest with
    | [] => [[]]
    | cur :: more => if c = ',' then [] :: cur :: more else (c :: cur) :: more

/-- `subjects.join(', ')` over character lists (`Array.prototype.join`). -/
def joinSubjectsChars : List (List Char) → List Char
  | [] => []
  | [s] => s
  | s :: rest => s ++ ',' :: ' ' :: joinSubjectsChars rest

/-- `x ?? undefined` / `x || undefined` for a nullable string: an empty or
absent string becomes `undefined`. -/
def jsOrUndefined (v : Option String) : Option String :=
  if jsTruthy v then v else none

/-- `x || d` for a nullable string with a string default. -/
def jsOrStr (v : Option String) (d : String) : String :=
  match v with
  | some s => if s = "" then d else s
  | none => d

/-- Model of Angular `HttpParams`: an ordered list of key/value pairs. -/
abbrev Params := List (String × String)

/-- `HttpParams.set`: replace every binding of `k` by the single value `v`. -/
def Params.set (ps : Params) (k v : String) : Params :=
  ps.filter (fun p => p.1 ≠ k) ++ [(k, v)]

/-- `HttpParams.append`: add one more value for `k`. -/
def Params.append (ps : Params) (k v : String) : Params :=
  ps ++ [(k, v)]

/-- All values bound to key `k`, in order. -/
def Params.valuesOf (ps : Params) (k : String) : List String :=
  (ps.filter (fun p => p.1 = k)).map Prod.snd

/-- The recurring TypeScript idiom `if (x) { params = params.set(k, x) }`
for a nullable string `x` (truthiness: null/undefined/empty skip the set). -/
def Params.setIfTruthy (ps : Params) (k : String) (v : Option String) : Params :=
  match v with
  | some s => if s = "" then ps else ps.set k s
  | none => ps

/-- The idiom `if (x && x > 0) { params = params.set(k, x.toString()) }` for a
nullable number `x`. -/
def Params.setIfPos (ps : Params) (k : String) (v : Option Int) : Params :=
  match v with
  | some n => if 0 < n then ps.set k (toString n) else ps
  | none => ps

/-- The idiom
`if (journalSlug) { set('journal', journalSlug) } else if (typeof journalId === 'number') { set('journal_id', ...) }`. -/
def Params.setJournalOrId (ps : Params) (slug : Option String) (jid : Option Int) : Params :=
  match slug with
  | some s =>
    if s = "" then
      match jid with
      | some j => ps.set "journal_id" (toString j)
      | none => ps
    else ps.set "journal" s
  | none =>
    match jid with
    | some j => ps.set "journal_id" (toString j)
    | none => ps

/-- `authors.map(a => a?.trim()).filter(Boolean)`. -/
def normalizeAuthors (authors : List String) : List String :=
  (authors.map jsTrim).filter (fun a => a ≠ "")

/-- The idiom `if (Array.isArray(authors)) { ...forEach(append('author', a)) }`. -/
def Params.appendAuthors (ps : Params) (authors : Option (List String)) : Params :=
  match authors with
  | some as => (normalizeAuthors as).foldl (fun acc a => acc.append "author" a) ps
  | none => ps

/-- A JavaScript `number | string` array element (`issuedYears`). -/
inductive NumOrStr where
  | num (n : Int)
  | str (s : String)
deriving DecidableEq

/-- Leading decimal digits of a character list, `none` when there are none
(`Number.parseInt` yields `NaN`). -/
def parseDigits (cs : List Char) : Option Nat :=
  let ds := cs.takeWhile Char.isDigit
  if ds = [] then none
  else some (ds.foldl (fun a c => a * 10 + (c.toNat - 48)) 0)

/-- Model of `Number.parseInt(s, 10)`: skip leading whitespace, read an
optional sign and leading digits; `none` models `NaN`. -/
def parseIntJs (s : String) : Option Int :=
  match s.toList.dropWhile (fun c => c = ' ' || c = '\t' || c = '\n' || c = '\r') with
  | '+' :: rest => (parseDigits rest).map Int.ofNat
  | '-' :: rest => (parseDigits rest).map (fun n => -(Int.ofNat n))
  | cs => (parseDigits cs).map Int.ofNat

/-- `issuedYears.map(y => typeof y === 'number' ? y : Number.parseInt(String(y), 10)).filter(Number.isFinite)`. -/
def normalizeIssuedYears (ys : List NumOrStr) : List Int :=
  ys.filterMap (fun y =>
    match y with
    | NumOrStr.num n => some n
    | NumOrStr.str s => parseIntJs s)

/-- The idiom `if (Array.isArray(issuedYears)) { ...forEach(append('issued_year', String(year))) }`. -/
def Params.appendIssuedYears (ps : Params) (ys : Option (List NumOrStr)) : Params :=
  match ys with
  | some l => (normalizeIssuedYears l).foldl (fun acc y => acc.append "issued_year" (toString y)) ps
  | none => ps

/-! ## Data model (client/src/app/core/models) -/

/-- `PublicationMetadataEntry` (publication.models.ts). -/
structure PublicationMetadataEntry where
  id : Int
  schema : String
  element : String
  qualifier : Option String
  value : String
  language : Option String
  position : Int
deriving DecidableEq

/-- The inline `journal` reference of a `Publication`. -/
structure PublicationJournalRef where
  id : String
  slug : String
  name : String
deriving DecidableEq

/-- `Publication` (publication.models.ts). -/
structure Publication where
  id : String
  title : String
  slug : String
  description : String
  publisher : String
  publisher_url : Option String
  issued : Option String
  resource_type : String
  resource_format : String
  rights : String
  journal : Option PublicationJournalRef
  oai_identifier : Option String
  oai_datestamp : Option String
  metadata : List PublicationMetadataEntry
  created_at : String
  updated_at : String
deriving DecidableEq

/-- `PublicationMetadataPayload` (publication.models.ts): the outbound form
of a metadata entry, with optional fields. -/
structure PublicationMetadataPayload where
  schema : Option String := none
  element : String
  qualifier : Option String := none
  value : String
  language : Option String := none
  position : Option Int := none
deriving DecidableEq

/-- `FacetItem` (publication.models.ts). -/
structure FacetItem where
  value : String
  label : String
  count : Int
  active : Bool
deriving DecidableEq

/-- `FacetSummary` (publication.models.ts). -/
structure FacetSummary where
  param : String
  total : Int
  more_url : Option String
  items : List FacetItem
deriving DecidableEq

/-- `PublicationFacetCollection` (publication.models.ts). -/
structure PublicationFacetCollection where
  authors : FacetSummary
  subjects : FacetSummary
  journals : FacetSummary
  issued_years : FacetSummary
deriving DecidableEq

/-- Modelled from the spec: `PaginatedResponse` lives in
client/src/app/core/models/pagination.models.ts, which is not among the
provided sources; per the spec both list paths return the envelope
`\x7bcount, page, page_size, results[], ...\x7d`. -/
structure PaginatedResponse (α : Type) where
  count : Int
  page : Int
  page_size : Int
  results : List α

/-- `PublicationListResponse extends PaginatedResponse<Publication>` with the
facet collection (publication.models.ts). -/
structure PublicationListResponse extends PaginatedResponse Publication where
  facets : PublicationFacetCollection

/-- `FacetListResponse` (publication.models.ts). -/
structure FacetListResponse where
  count : Int
  page : Int
  page_size : Int
  total_pages : Int
  next : Option String
  previous : Option String
  param : String
  results : List FacetItem

/-- `HarvestStatus = 'running' | 'success' | 'failed'` (harvest-log.models.ts). -/
inductive HarvestStatus where
  | running
  | success
  | failed
deriving DecidableEq

/-- The wire string of a `HarvestStatus` value. -/
def HarvestStatus.toParam : HarvestStatus → String
  | .running => "running"
  | .success => "success"
  | .failed => "failed"

/-- `HarvestLogJournalSummary` (harvest-log.models.ts). -/
structure HarvestLogJournalSummary where
  id : String
  slug : String
  name : String
deriving DecidableEq

/-- `HarvestLog` (harvest-log.models.ts). -/
structure HarvestLog where
  id : Int
  journal : Option HarvestLogJournalSummary
  started_at : String
  finished_at : Option String
  endpoint : String
  status : HarvestStatus
  record_count : Int
  error_message : String
deriving DecidableEq

/-- `Journal` (journal.models.ts). -/
structure Journal where
  id : String
  name : String
  slug : String
  description : String
  homepage_url : String
  oai_url : String
  last_harvested_at : Option String
  chief_editor : String
  publisher : String
  issn_print : String
  issn_online : String
  language : String
  country : String
  founded_year : Option Int
  contact_email : String
  is_active : Bool
  created_at : String
  updated_at : String
  publications : Option (List Publication)

/-- `OAIValidationResponse` (journal.models.ts). -/
structure OAIValidationResponse where
  ok : Bool
  detail : String
deriving DecidableEq

/-! ## Request descriptors -/

/-- HTTP method of a request. -/
inductive HttpMethod where
  | get
  | post
deriving DecidableEq

/-- The distinct URL patterns the modelled services hit; a facet endpoint
carries its single facet-dimension path segment. -/
inductive Endpoint where
  | publications
  | publicationsSearch
  | publicationFacet (facet : String)
  | publicationSearchFacet (facet : String)
  | harvestLogs
  | journalsValidateOai
deriving DecidableEq

/-- The facet-dimension path segment of an endpoint, when it has one. -/
def Endpoint.facetDim : Endpoint → Option String
  | .publicationFacet f => some f
  | .publicationSearchFacet f => some f
  | _ => none

/-- Static response shape of an API call, as declared by the TypeScript
generic instantiation at the call site. -/
inductive ResponseShape where
  | publicationList
  | facetList
  | harvestLogList
  | oaiValidation
deriving DecidableEq

/-- The Lean type a response shape decodes to. -/
def ResponseShape.decodesTo : ResponseShape → Type
  | .publicationList => PublicationListResponse
  | .facetList => FacetListResponse
  | .harvestLogList => PaginatedResponse HarvestLog
  | .oaiValidation => OAIValidationResponse

/-- One HTTP request as issued by a service method. -/
structure ApiRequest where
  method : HttpMethod
  endpoint : Endpoint
  params : Params
  body : List (String × String)
  shape : ResponseShape

/-! ## PublicationApiService (publication-api.service.ts) -/

/-- `PublicationListOptions` (publication-api.service.ts). -/
structure PublicationListOptions where
  page : Option Int := none
  search : Option String := none
  pageSize : Option Int := none
  journalSlug : Option String := none
  journalId : Option Int := none
  ordering : Option String := none
  issuedFrom : Option String := none
  issuedTo : Option String := none
  subject : Option String := none
  authors : Option (List String) := none
  issuedYears : Option (List NumOrStr) := none

/-- `PublicationApiService.list`: GET `/publications/` with the structured
filter parameters. -/
def PublicationApiService.list (o : PublicationListOptions) : ApiRequest :=
  let page := o.page.getD 1
  let ps := Params.set [] "page" (toString page)
  let ps := ps.setIfTruthy "search" o.search
  let ps := ps.setIfPos "page_size" o.pageSize
  let ps := ps.setJournalOrId o.journalSlug o.journalId
  let ps := ps.setIfTruthy "ordering" o.ordering
  let ps := ps.setIfTruthy "issued_from" o.issuedFrom
  let ps := ps.setIfTruthy "issued_to" o.issuedTo
  let ps := ps.setIfTruthy "subject" o.subject
  let ps := ps.appendAuthors o.authors
  let ps := ps.appendIssuedYears o.issuedYears
  { method := .get, endpoint := .publications, params := ps, body := [],
    shape := .publicationList }

/-- `PublicationApiService.search`: GET `/publications/search/` with `q` and
the same structured filter parameters (no `journal_id` branch here). -/
def PublicationApiService.search (query : String) (o : PublicationListOptions) : ApiRequest :=
  let page := o.page.getD 1
  let ps := (Params.set [] "page" (toString page)).set "q" query
  let ps := ps.setIfPos "page_size" o.pageSize
  let ps := ps.setIfTruthy "journal" o.journalSlug
  let ps := ps.setIfTruthy "ordering" o.ordering
  let ps := ps.setIfTruthy "issued_from" o.issuedFrom
  let ps := ps.setIfTruthy "issued_to" o.issuedTo
  let ps := ps.setIfTruthy "subject" o.subject
  let ps := ps.appendAuthors o.authors
  let ps := ps.appendIssuedYears o.issuedYears
  { method := .get, endpoint := .publicationsSearch, params := ps, body := [],
    shape := .publicationList }

/-- `PublicationApiService.buildFacetParams`. -/
def PublicationApiService.buildFacetParams (o : PublicationListOptions) : Params :=
  let page := o.page.getD 1
  let ps := Params.set [] "page" (toString page)
  let ps := ps.setIfPos "page_size" o.pageSize
  let ps := ps.setJournalOrId o.journalSlug o.journalId
  let ps := ps.setIfTruthy "ordering" o.ordering
  let ps := ps.setIfTruthy "issued_from" o.issuedFrom
  let ps := ps.setIfTruthy "issued_to" o.issuedTo
  let ps := ps.setIfTruthy "subject" o.subject
  let ps := ps.appendAuthors o.authors
  let ps := ps.appendIssuedYears o.issuedYears
  ps

/-- `PublicationApiService.listFacet`: GET `/publications/facets/{facetName}/`
(the facet name is URL-encoded into the path; it is kept verbatim here). -/
def PublicationApiService.listFacet (facetName : String) (o : PublicationListOptions) : ApiRequest :=
  { method := .get, endpoint := .publicationFacet facetName,
    params := PublicationApiService.buildFacetParams o, body := [],
    shape := .facetList }

/-- `PublicationApiService.searchFacet`: GET
`/publications/search/facets/{facetName}/` with `q` added. -/
def PublicationApiService.searchFacet (query : String) (facetName : String)
    (o : PublicationListOptions) : ApiRequest :=
  let params := PublicationApiService.buildFacetParams { o with search := none }
  let nextParams := params.set "q" query
  { method := .get, endpoint := .publicationSearchFacet facetName,
    params := nextParams, body := [], shape := .facetList }

/-! ## HarvestLogApiService (harvest-log-api.service.ts) -/

/-- `HarvestLogQuery` (harvest-log-api.service.ts). -/
structure HarvestLogQuery where
  page : Option Int := none
  pageSize : Option Int := none
  journal : Option String := none
  journalId : Option String := none
  status : Option HarvestStatus := none

/-- `HarvestLogApiService.list`: GET `/harvest-logs/`.  The `status` guard
`if (query.status)` is truthy exactly when a status is present, since all
three status strings are non-empty. -/
def HarvestLogApiService.list (q : HarvestLogQuery) : ApiRequest :=
  let page := q.page.getD 1
  let ps := Params.set [] "page" (toString (max 1 page))
  let ps := match q.pageSize with
    | some n => if 0 < n then ps.set "page_size" (toString (max 1 n)) else ps
    | none => ps
  let ps := ps.setIfTruthy "journal" q.journal
  let ps := ps.setIfTruthy "journal_id" q.journalId
  let ps := match q.status with
    | some s => ps.set "status" s.toParam
    | none => ps
  { method := .get, endpoint := .harvestLogs, params := ps, body := [],
    shape := .harvestLogList }

/-! ## JournalApiService (journal-api.service.ts) -/

/-- `JournalApiService.validateOai`: a single POST of `\x7boai_url\x7d` to
`/journals/validate-oai/`. -/
def JournalApiService.validateOai (oaiUrl : String) : ApiRequest :=
  { method := .post, endpoint := .journalsValidateOai, params := [],
    body := [("oai_url", oaiUrl)], shape := .oaiValidation }


/-! ## PublicationListComponent (publication-list.component.ts) -/

/-- The signal state of `PublicationListComponent` that feeds
`fetchPublications`. -/
structure PubListState where
  page : Int := 1
  pageSize : Int := 10
  searchQuery : String := ""
  journalSlug : Option String := none
  ordering : Option String := none
  issuedFrom : Option String := none
  issuedTo : Option String := none
  subjectFilters : List String := []
  authorFilters : List String := []
  issuedYearFilters : List String := []

/-- `parseSubjectParam`: split the single `subject` query parameter on
commas, trim each part, and drop empties. -/
def PublicationListComponent.parseSubjectParam (value : Option String) : List String :=
  match value with
  | none => []
  | some s =>
    if s = "" then []
    else (((splitOnCommaChars s.data).map trimChars).filter (fun e => e ≠ [])).map String.mk

/-- `subjectValues.join(', ')` as used by `updateQueryParams` and
`fetchPublications`. -/
def PublicationListComponent.joinSubjects (subjects : List String) : String :=
  String.mk (joinSubjectsChars (subjects.map String.data))

/-- The `hasAdditionalFilters` disjunction inside `fetchPublications`. -/
def PublicationListComponent.hasAdditionalFilters (st : PubListState) : Bool :=
  jsTruthy st.journalSlug || jsTruthy st.issuedFrom || jsTruthy st.issuedTo ||
  jsTruthy st.ordering || decide (st.subjectFilters.length ≠ 0) ||
  decide (st.authorFilters.length ≠ 0) || decide (st.issuedYearFilters.length ≠ 0)

/-- `fetchPublications`: select the backend and build the one request the
component issues. -/
def PublicationListComponent.fetchRequest (st : PubListState) : ApiRequest :=
  let trimmedSearch := jsTrim st.searchQuery
  let isSearch : Bool := decide (0 < trimmedSearch.length)
  let requestedPageSize := max 1 st.pageSize
  let subjectString : Option String :=
    if st.subjectFilters.length ≠ 0 then some (PublicationListComponent.joinSubjects st.subjectFilters)
    else none
  let usingSearchEndpoint := isSearch && !(PublicationListComponent.hasAdditionalFilters st)
  let filterOptions : PublicationListOptions :=
    { page := some st.page,
      pageSize := some requestedPageSize,
      journalSlug := st.journalSlug,
      ordering := st.ordering,
      issuedFrom := st.issuedFrom,
      issuedTo := st.issuedTo,
      subject := subjectString,
      authors := if st.authorFilters.length ≠ 0 then some st.authorFilters else none,
      issuedYears :=
        if st.issuedYearFilters.length ≠ 0 then some (st.issuedYearFilters.map NumOrStr.str)
        else none }
  if usingSearchEndpoint then
    PublicationApiService.search trimmedSearch filterOptions
  else
    PublicationApiService.list { filterOptions with search := if isSearch then some trimmedSearch else none }

/-- The signal updates performed by the error callback of
`fetchPublications`, together with any follow-up request it issues (the
source issues none: the handler only sets signals). -/
structure FetchErrorOutcome where
  loading : Bool
  facets : Option PublicationFacetCollection
  count : Int
  publications : List Publication
  error : Option String
  followUpRequest : Option ApiRequest

/-- The error callback of `fetchPublications`. -/
def PublicationListComponent.fetchOnError (st : PubListState) (errStatus : Option Int)
    (errDetail : Option String) : FetchErrorOutcome :=
  let trimmedSearch := jsTrim st.searchQuery
  let isSearch : Bool := decide (0 < trimmedSearch.length)
  let usingSearchEndpoint := isSearch && !(PublicationListComponent.hasAdditionalFilters st)
  let detail :=
    if usingSearchEndpoint && errStatus == some 503 then
      "Search is temporarily unavailable. Please try again later."
    else if isSearch && !usingSearchEndpoint then
      "Unable to apply the selected filters with search."
    else errDetail.getD "Unable to load publications."
  { loading := false, facets := none, count := 0, publications := [],
    error := some detail, followUpRequest := none }

/-- `MAX_PAGE_LINKS`. -/
def maxPageLinks : Int := 7

/-- `Array.from(\x7blength: len\x7d, (_, i) => start + i)`: the contiguous run
of `len` integers starting at `start`. -/
def intRangeList (start : Int) (len : Nat) : List Int :=
  (List.range len).map (fun i => start + Int.ofNat i)

/-- The `totalPages` computed signal of `PublicationListComponent`. -/
def PublicationListComponent.totalPages (count pageSize : Int) : Int :=
  let size := max 1 pageSize
  if count = 0 then 1 else Int.ceil ((count : ℚ) / (size : ℚ))

/-- The `pageNumbers` computed signal of `PublicationListComponent`. -/
def PublicationListComponent.pageNumbers (total current : Int) : List Int :=
  if total ≤ maxPageLinks then intRangeList 1 total.toNat
  else
    let half := maxPageLinks / 2
    let start := current - half
    let stop := current + half
    let (start, stop) := if start < 1 then (1, 1 + maxPageLinks - 1) else (start, stop)
    let (start, stop) := if stop > total then (total - maxPageLinks + 1, total) else (start, stop)
    intRangeList start (stop - start + 1).toNat

/-! ## HarvestLogListComponent (harvest-log-list.component.ts) -/

/-- The `totalPages` computed signal of `HarvestLogListComponent`. -/
def HarvestLogListComponent.totalPages (count pageSize : Int) : Int :=
  let size := max 1 pageSize
  if count = 0 then 1 else Int.ceil ((count : ℚ) / (size : ℚ))

/-- The `pageNumbers` computed signal of `HarvestLogListComponent`. -/
def HarvestLogListComponent.pageNumbers (total current : Int) : List Int :=
  if total ≤ maxPageLinks then intRangeList 1 total.toNat
  else
    let half := maxPageLinks / 2
    let start := current - half
    let stop := current + half
    let (start, stop) := if start < 1 then (1, 1 + maxPageLinks - 1) else (start, stop)
    let (start, stop) := if stop > total then (total - maxPageLinks + 1, total) else (start, stop)
    intRangeList start (stop - start + 1).toNat

/-- The status normalization in `ngOnInit`:
`statusParam && ['running','success','failed'].includes(statusParam) ? statusParam : null`. -/
def HarvestLogListComponent.normalizeStatusParam (p : Option String) : Option HarvestStatus :=
  match p with
  | none => none
  | some s =>
    if s = "running" then some HarvestStatus.running
    else if s = "success" then some HarvestStatus.success
    else if s = "failed" then some HarvestStatus.failed
    else none

/-- `onStatusChange`: `some f` means the filter is set to `f`; `none` means
the value is ignored. -/
def HarvestLogListComponent.onStatusChange (value : String) : Option (Option HarvestStatus) :=
  if value = "" || value = "all" then some none
  else if value = "success" then some (some HarvestStatus.success)
  else if value = "failed" then some (some HarvestStatus.failed)
  else if value = "running" then some (some HarvestStatus.running)
  else none

/-- `fetchLogs`: the listing request built from the component state
(`journal: journal || undefined, status: status || undefined`). -/
def HarvestLogListComponent.fetchLogsRequest (page pageSize : Int) (journal : Option String)
    (status : Option HarvestStatus) : ApiRequest :=
  HarvestLogApiService.list
    { page := some page, pageSize := some pageSize,
      journal := jsOrUndefined journal, journalId := none, status := status }

/-! ## PublicationFacetListComponent (publication-facet-list.component.ts) -/

/-- `FacetRouteKey`. -/
inductive FacetRouteKey where
  | authors
  | subjects
  | journals
  | issued_years
deriving DecidableEq

/-- The route segment of a facet key (the strings of `FacetRouteKey`). -/
def FacetRouteKey.toName : FacetRouteKey → String
  | .authors => "authors"
  | .subjects => "subjects"
  | .journals => "journals"
  | .issued_years => "issued_years"

/-- The `searchMode` signal value (`'default' | 'elastic'`). -/
inductive SearchMode where
  | default
  | elastic
deriving DecidableEq

/-- `fetchFacet`: pick the search-facet endpoint exactly when
`searchMode === 'elastic' && searchTerm`, else the list-facet endpoint. -/
def PublicationFacetListComponent.fetchFacetRequest (mode : SearchMode) (searchTerm : String)
    (facetKey : FacetRouteKey) (o : PublicationListOptions) : ApiRequest :=
  if mode = SearchMode.elastic ∧ searchTerm ≠ "" then
    PublicationApiService.searchFacet searchTerm facetKey.toName o
  else
    PublicationApiService.listFacet facetKey.toName o

/-! ## JournalDetailComponent (journal-detail.component.ts) -/

/-- The three OAI-test display signals. -/
structure OaiTestState where
  testingOai : Bool
  oaiTestMessage : Option String
  oaiTestSuccess : Option Bool
deriving DecidableEq

/-- The component state relevant to the endpoint probe. -/
structure JournalDetailState where
  loading : Bool
  error : Option String
  journal : Option Journal
  testState : OaiTestState

/-- The success callback of `testOaiEndpoint`: surface `result.detail` when
non-empty, else a default message chosen by `result.ok`. -/
def JournalDetailComponent.onValidateOaiNext (result : OAIValidationResponse) : OaiTestState :=
  { testingOai := false,
    oaiTestSuccess := some result.ok,
    oaiTestMessage := some (if result.detail = "" then
      (if result.ok then "Endpoint responded successfully."
       else "Endpoint did not respond with valid OAI.")
      else result.detail) }

/-- The error callback of `testOaiEndpoint`:
`typeof detail === 'string' && detail.trim() ? detail : fallback`. -/
def JournalDetailComponent.onValidateOaiError (errDetail : Option String) : OaiTestState :=
  { testingOai := false,
    oaiTestSuccess := some false,
    oaiTestMessage := some (match errDetail with
      | some d => if jsTrim d = "" then "Unable to validate the endpoint. Confirm the URL is reachable." else d
      | none => "Unable to validate the endpoint. Confirm the URL is reachable.") }

/-- Apply the success callback to the component state: only the test signals
change. -/
def JournalDetailComponent.applyOaiNext (st : JournalDetailState)
    (result : OAIValidationResponse) : JournalDetailState :=
  { st with testState := JournalDetailComponent.onValidateOaiNext result }

/-- Apply the error callback to the component state: only the test signals
change. -/
def JournalDetailComponent.applyOaiError (st : JournalDetailState)
    (errDetail : Option String) : JournalDetailState :=
  { st with testState := JournalDetailComponent.onValidateOaiError errDetail }

/-- `testOaiEndpoint` up to the moment the request (if any) is dispatched:
returns the single probe request together with the new component state. -/
def JournalDetailComponent.testOaiEndpoint (st : JournalDetailState) (canManage : Bool) :
    Option ApiRequest × JournalDetailState :=
  if !canManage || st.testState.testingOai then (none, st)
  else
    let oaiUrl : Option String := st.journal.map (fun j => jsTrim j.oai_url)
    let st1 : JournalDetailState :=
      { st with testState := { testingOai := false, oaiTestMessage := none, oaiTestSuccess := none } }
    let noUrlState : OaiTestState :=
      { testingOai := false, oaiTestSuccess := some false,
        oaiTestMessage := some "No OAI-PMH URL is configured for this journal." }
    match oaiUrl with
    | some u =>
      if u = "" then
        (none, { st1 with testState := noUrlState })
      else
        (some (JournalApiService.validateOai u),
         { st1 with testState := { st1.testState with testingOai := true } })
    | none =>
      (none, { st1 with testState := noUrlState })

/-! ## PublicationFormComponent (publication-form.component.ts) -/

/-- `buildPayload`: the combined metadata list is the core-field entries
followed by the additional entries, re-normalized and assigned `position`
equal to the display index. -/
def PublicationFormComponent.combinedEntries (coreEntries metadataEntries : List PublicationMetadataPayload)
    (defaultSchema : String) : List PublicationMetadataPayload :=
  (coreEntries ++ metadataEntries).mapIdx (fun index entry =>
    { schema := some (jsToLower (jsOrStr entry.schema defaultSchema)),
      element := jsToLower entry.element,
      qualifier := match entry.qualifier with
        | some q => if q = "" then none else some (jsToLower q)
        | none => none,
      value := entry.value,
      language := match entry.language with
        | some l => if l = "" then none else some (jsToLower l)
        | none => none,
      position := some (index : Int) })

/-- `setMetadataEntries`: the display order of a loaded publication's
metadata entries — sorted ascending by `position` (the source comparator is
`(a.position ?? 0) - (b.position ?? 0)`; `position` is non-optional on
stored entries, so the `?? 0` fallback is the identity here). -/
def PublicationFormComponent.setMetadataEntries (entries : List PublicationMetadataEntry) :
    List PublicationMetadataEntry :=
  entries.mergeSort (fun a b => decide (a.position ≤ b.position))

/-- Two payload entries belong to the same (schema, element, qualifier)
group. -/
def sameGroup (a b : PublicationMetadataPayload) : Prop :=
  a.schema = b.schema ∧ a.element = b.element ∧ a.qualifier = b.qualifier

/-! ## Lemmas on parameter lookup -/

@[simp] theorem Params.valuesOf_nil (k : String) : Params.valuesOf [] k = [] := rfl

theorem Params.valuesOf_append_list (l1 l2 : Params) (k : String) :
    Params.valuesOf (l1 ++ l2) k = l1.valuesOf k ++ l2.valuesOf k := by
  simp [Params.valuesOf, List.filter_append]

theorem Params.valuesOf_single (k' v k : String) :
    Params.valuesOf [(k', v)] k = if k' = k then [v] else [] := by
  by_cases h : k' = k <;> simp [Params.valuesOf, h]

theorem Params.valuesOf_filter_ne (ps : Params) (k' k : String) (h : ¬k' = k) :
    Params.valuesOf (ps.filter (fun p => p.1 ≠ k')) k = ps.valuesOf k := by
  unfold Params.valuesOf
  congr 1
  rw [List.filter_filter]
  apply List.filter_congr
  intro a _
  by_cases ha : a.1 = k
  · simp [ha, Ne.symm h]
  · simp [ha]

theorem Params.valuesOf_set (ps : Params) (k' v k : String) :
    (ps.set k' v).valuesOf k = if k' = k then [v] else ps.valuesOf k := by
  by_cases h : k' = k
  · subst h
    unfold Params.set
    rw [Params.valuesOf_append_list, Params.valuesOf_single]
    simp [Params.valuesOf, List.filter_filter]
  · unfold Params.set
    rw [Params.valuesOf_append_list, Params.valuesOf_single, Params.valuesOf_filter_ne ps k' k h]
    simp [h]

theorem Params.valuesOf_append (ps : Params) (k' v k : String) :
    (ps.append k' v).valuesOf k = ps.valuesOf k ++ (if k' = k then [v] else []) := by
  unfold Params.append
  rw [Params.valuesOf_append_list, Params.valuesOf_single]

theorem Params.valuesOf_setIfTruthy (ps : Params) (k' k : String) (v : Option String) :
    (ps.setIfTruthy k' v).valuesOf k =
      if k' = k then
        (match v with
          | some s => if s = "" then ps.valuesOf k else [s]
          | none => ps.valuesOf k)
      else ps.valuesOf k := by
  by_cases h : k' = k <;>
    cases v with
    | none => simp [Params.setIfTruthy, h]
    | some s =>
      by_cases hs : s = "" <;> simp [Params.setIfTruthy, hs, Params.valuesOf_set, h]

theorem Params.valuesOf_setIfPos (ps : Params) (k' k : String) (v : Option Int) :
    (ps.setIfPos k' v).valuesOf k =
      if k' = k then
        (match v with
          | some n => if 0 < n then [toString n] else ps.valuesOf k
          | none => ps.valuesOf k)
      else ps.valuesOf k := by
  by_cases h : k' = k <;>
    cases v with
    | none => simp [Params.setIfPos, h]
    | some n =>
      by_cases hn : 0 < n <;> simp [Params.setIfPos, hn, Params.valuesOf_set, h]

theorem Params.valuesOf_setJournalOrId (ps : Params) (slug : Option String)
    (jid : Option Int) (k : String) (hj : ¬"journal" = k) (hi : ¬"journal_id" = k) :
    (ps.setJournalOrId slug jid).valuesOf k = ps.valuesOf k := by
  cases slug with
  | none =>
    cases jid with
    | none => simp [Params.setJournalOrId]
    | some j => simp [Params.setJournalOrId, Params.valuesOf_set, hi]
  | some s =>
    by_cases hs : s = ""
    · cases jid with
      | none => simp [Params.setJournalOrId, hs]
      | some j => simp [Params.setJournalOrId, hs, Params.valuesOf_set, hi]
    · simp [Params.setJournalOrId, hs, Params.valuesOf_set, hj]

theorem Params.valuesOf_setJournalOrId_journal (ps : Params) (slug : Option String)
    (jid : Option Int) :
    (ps.setJournalOrId slug jid).valuesOf "journal" =
      (match slug with
        | some s => if s = "" then ps.valuesOf "journal" else [s]
        | none => ps.valuesOf "journal") := by
  cases slug with
  | none =>
    cases jid with
    | none => simp [Params.setJournalOrId]
    | some j => simp [Params.setJournalOrId, Params.valuesOf_set]
  | some s =>
    by_cases hs : s = ""
    · cases jid with
      | none => simp [Params.setJournalOrId, hs]
      | some j => simp [Params.setJournalOrId, hs, Params.valuesOf_set]
    · simp [Params.setJournalOrId, hs, Params.valuesOf_set]

theorem Params.valuesOf_setJournalOrId_jid (ps : Params) (slug : Option String)
    (jid : Option Int) :
    (ps.setJournalOrId slug jid).valuesOf "journal_id" =
      (match slug with
        | some s =>
          if s = "" then
            (match jid with
              | some j => [toString j]
              | none => ps.valuesOf "journal_id")
          else ps.valuesOf "journal_id"
        | none =>
          (match jid with
            | some j => [toString j]
            | none => ps.valuesOf "journal_id")) := by
  cases slug with
  | none =>
    cases jid with
    | none => simp [Params.setJournalOrId]
    | some j => simp [Params.setJournalOrId, Params.valuesOf_set]
  | some s =>
    by_cases hs : s = ""
    · cases jid with
      | none => simp [Params.setJournalOrId, hs]
      | some j => simp [Params.setJournalOrId, hs, Params.valuesOf_set]
    · simp [Params.setJournalOrId, hs, Params.valuesOf_set]

theorem Params.valuesOf_foldl_append (l : List String) (ps : Params) (key k : String) :
    (l.foldl (fun acc a => acc.append key a) ps).valuesOf k =
      ps.valuesOf k ++ (if key = k then l else []) := by
  induction l generalizing ps with
  | nil => simp
  | cons a t ih =>
    rw [List.foldl_cons, ih, Params.valuesOf_append]
    by_cases h : key = k <;> simp [h]

theorem Params.valuesOf_appendAuthors (ps : Params) (authors : Option (List String))
    (k : String) :
    (ps.appendAuthors authors).valuesOf k =
      ps.valuesOf k ++
        (if "author" = k then
          (match authors with
            | some as => normalizeAuthors as
            | none => [])
          else []) := by
  cases authors with
  | none => by_cases h : "author" = k <;> simp [Params.appendAuthors, h]
  | some as => rw [Params.appendAuthors, Params.valuesOf_foldl_append]

theorem Params.valuesOf_appendIssuedYears (ps : Params) (ys : Option (List NumOrStr))
    (k : String) :
    (ps.appendIssuedYears ys).valuesOf k =
      ps.valuesOf k ++
        (if "issued_year" = k then
          (match ys with
            | some l => (normalizeIssuedYears l).map toString
            | none => [])
          else []) := by
  cases ys with
  | none => by_cases h : "issued_year" = k <;> simp [Params.appendIssuedYears, h]
  | some l =>
    rw [Params.appendIssuedYears]
    have hfold : ∀ (il : List Int) (ps0 : Params),
        (il.foldl (fun acc y => acc.append "issued_year" (toString y)) ps0).valuesOf k =
          ps0.valuesOf k ++ (if "issued_year" = k then il.map toString else []) := by
      intro il
      induction il with
      | nil => intro ps0; simp
      | cons y t ih =>
        intro ps0
        rw [List.foldl_cons, ih, Params.valuesOf_append]
        by_cases h : "issued_year" = k <;> simp [h]
    exact hfold _ ps

/-! ## Claim C2 -/

/-- C2: the relational list request and the index search request share one
response envelope: both decode to `PublicationListResponse`, whose shape is
exactly `\x7bcount, page, page_size, results[], facets\x7d`, and whose facet
collection carries exactly the four dimensions authors, subjects, journals
and issued_years. -/
theorem spec_C2_shared_envelope :
    (∀ o : PublicationListOptions,
      (PublicationApiService.list o).shape = ResponseShape.publicationList)
    ∧ (∀ (q : String) (o : PublicationListOptions),
      (PublicationApiService.search q o).shape = ResponseShape.publicationList)
    ∧ ResponseShape.publicationList.decodesTo = PublicationListResponse
    ∧ (∀ r : PublicationListResponse,
      r = { count := r.count, page := r.page, page_size := r.page_size,
            results := r.results, facets := r.facets })
    ∧ (∀ f : PublicationFacetCollection,
      f = { authors := f.authors, subjects := f.subjects, journals := f.journals,
            issued_years := f.issued_years }) :=
  ⟨fun _ => rfl, fun _ _ => rfl, rfl, fun _ => rfl, fun _ => rfl⟩

/-! ## Claim C4 -/

/-- C4: a harvest-log listing entry has exactly the fields id, journal,
started_at, finished_at, endpoint, status, record_count, error_message; the
listing request supports journal/status filtering and pagination, and sends
each filter parameter exactly when the corresponding filter is set. -/
theorem spec_C4_harvest_log_listing :
    (∀ l : HarvestLog,
      l = { id := l.id, journal := l.journal, started_at := l.started_at,
            finished_at := l.finished_at, endpoint := l.endpoint, status := l.status,
            record_count := l.record_count, error_message := l.error_message })
    ∧ (∀ q : HarvestLogQuery,
      (HarvestLogApiService.list q).endpoint = Endpoint.harvestLogs
      ∧ (HarvestLogApiService.list q).shape = ResponseShape.harvestLogList
      ∧ (HarvestLogApiService.list q).params.valuesOf "journal" =
          (match q.journal with
            | some s => if s = "" then [] else [s]
            | none => [])
      ∧ (HarvestLogApiService.list q).params.valuesOf "status" =
          (match q.status with
            | some s => [s.toParam]
            | none => [])
      ∧ (HarvestLogApiService.list q).params.valuesOf "page" =
          [toString (max 1 (q.page.getD 1))]
      ∧ (HarvestLogApiService.list q).params.valuesOf "page_size" =
          (match q.pageSize with
            | some n => if 0 < n then [toString (max 1 n)] else []
            | none => [])) := by
  refine ⟨fun l => rfl, fun q => ⟨rfl, rfl, ?_, ?_, ?_, ?_⟩⟩
  · unfold HarvestLogApiService.list
    cases hst : q.status with
    | none =>
      cases hps : q.pageSize with
      | none =>
        simp [Params.valuesOf_setIfTruthy, Params.valuesOf_set]
      | some n =>
        by_cases hn : 0 < n <;>
          simp [hn, Params.valuesOf_setIfTruthy, Params.valuesOf_set]
    | some s =>
      cases hps : q.pageSize with
      | none =>
        simp [Params.valuesOf_set, Params.valuesOf_setIfTruthy]
      | some n =>
        by_cases hn : 0 < n <;>
          simp [hn, Params.valuesOf_set, Params.valuesOf_setIfTruthy]
  · unfold HarvestLogApiService.list
    cases hst : q.status with
    | none =>
      cases hps : q.pageSize with
      | none => simp [Params.valuesOf_setIfTruthy, Params.valuesOf_set]
      | some n =>
        by_cases hn : 0 < n <;>
          simp [hn, Params.valuesOf_setIfTruthy, Params.valuesOf_set]
    | some s =>
      cases hps : q.pageSize with
      | none => simp [Params.valuesOf_set, Params.valuesOf_setIfTruthy]
      | some n =>
        by_cases hn : 0 < n <;>
          simp [hn, Params.valuesOf_set, Params.valuesOf_setIfTruthy]
  · unfold HarvestLogApiService.list
    cases hst : q.status with
    | none =>
      cases hps : q.pageSize with
      | none => simp [Params.valuesOf_setIfTruthy, Params.valuesOf_set]
      | some n =>
        by_cases hn : 0 < n <;>
          simp [hn, Params.valuesOf_setIfTruthy, Params.valuesOf_set]
    | some s =>
      cases hps : q.pageSize with
      | none => simp [Params.valuesOf_set, Params.valuesOf_setIfTruthy]
      | some n =>
        by_cases hn : 0 < n <;>
          simp [hn, Params.valuesOf_set, Params.valuesOf_setIfTruthy]
  · unfold HarvestLogApiService.list
    cases hst : q.status with
    | none =>
      cases hps : q.pageSize with
      | none => simp [Params.valuesOf_setIfTruthy, Params.valuesOf_set]
      | some n =>
        by_cases hn : 0 < n <;>
          simp [hn, Params.valuesOf_setIfTruthy, Params.valuesOf_set]
    | some s =>
      cases hps : q.pageSize with
      | none => simp [Params.valuesOf_set, Params.valuesOf_setIfTruthy]
      | some n =>
        by_cases hn : 0 < n <;>
          simp [hn, Params.valuesOf_set, Params.valuesOf_setIfTruthy]

/-! ## Claim C5 -/

/-- C5: a harvest status is always one of running/success/failed; a status
route parameter is normalized to one of these three or to no filter, and the
listing request carries a status parameter only with one of the three
values. -/
theorem spec_C5_status_normalization :
    (∀ h : HarvestStatus,
      h = HarvestStatus.running ∨ h = HarvestStatus.success ∨ h = HarvestStatus.failed)
    ∧ (∀ s : String, (HarvestLogListComponent.normalizeStatusParam (some s)).isSome →
      s = "running" ∨ s = "success" ∨ s = "failed")
    ∧ (∀ (p : Option String) (page pageSize : Int) (journal : Option String),
      (HarvestLogListComponent.fetchLogsRequest page pageSize journal
          (HarvestLogListComponent.normalizeStatusParam p)).params.valuesOf "status" = []
      ∨ ∃ v, (HarvestLogListComponent.fetchLogsRequest page pageSize journal
            (HarvestLogListComponent.normalizeStatusParam p)).params.valuesOf "status" = [v]
          ∧ (v = "running" ∨ v = "success" ∨ v = "failed")) := by
  refine ⟨?_, ?_, ?_⟩
  · intro h
    cases h
    · exact Or.inl rfl
    · exact Or.inr (Or.inl rfl)
    · exact Or.inr (Or.inr rfl)
  · intro s
    unfold HarvestLogListComponent.normalizeStatusParam
    by_cases h1 : s = "running"
    · exact fun _ => Or.inl h1
    · by_cases h2 : s = "success"
      · exact fun _ => Or.inr (Or.inl h2)
      · by_cases h3 : s = "failed"
        · exact fun _ => Or.inr (Or.inr h3)
        · simp [h1, h2, h3]
  · intro p page pageSize journal
    have hstatus : ∀ st : Option HarvestStatus,
        (HarvestLogListComponent.fetchLogsRequest page pageSize journal st).params.valuesOf "status" =
          (match st with
            | some s => [s.toParam]
            | none => []) := by
      intro st
      unfold HarvestLogListComponent.fetchLogsRequest HarvestLogApiService.list
      by_cases hps : 0 < pageSize <;>
        cases st <;>
          simp [hps, Params.valuesOf_set, Params.valuesOf_setIfTruthy]
    rw [hstatus]
    cases hp : HarvestLogListComponent.normalizeStatusParam p with
    | none => exact Or.inl rfl
    | some s =>
      refine Or.inr ⟨s.toParam, rfl, ?_⟩
      cases s
      · exact Or.inl rfl
      · exact Or.inr (Or.inl rfl)
      · exact Or.inr (Or.inr rfl)

/-- C5 witness: the second conjunct applied to the concrete route value
"running". -/
theorem spec_C5_status_normalization_witness :
    "running" = "running" ∨ "running" = "success" ∨ "running" = "failed" :=
  spec_C5_status_normalization.2.1 "running" (by decide)

/-! ## Claim C8 -/

/-- C8: the OAI validation probe is a single POST of `\x7boai_url\x7d` whose
response is exactly `\x7bok, detail\x7d`; `testOaiEndpoint` issues at most this
one request, and the success/error callbacks surface the returned detail (or
a default message) while leaving the journal untouched. -/
theorem spec_C8_oai_validation_probe :
    (∀ url : String,
      JournalApiService.validateOai url =
        { method := HttpMethod.post, endpoint := Endpoint.journalsValidateOai,
          params := [], body := [("oai_url", url)], shape := ResponseShape.oaiValidation })
    ∧ ResponseShape.oaiValidation.decodesTo = OAIValidationResponse
    ∧ (∀ r : OAIValidationResponse, r = { ok := r.ok, detail := r.detail })
    ∧ (∀ (st : JournalDetailState) (c : Bool),
      (JournalDetailComponent.testOaiEndpoint st c).1 = none
      ∨ ∃ u, (JournalDetailComponent.testOaiEndpoint st c).1 =
          some (JournalApiService.validateOai u))
    ∧ (∀ (st : JournalDetailState) (c : Bool),
      (JournalDetailComponent.testOaiEndpoint st c).2.journal = st.journal
      ∧ (JournalDetailComponent.testOaiEndpoint st c).2.error = st.error)
    ∧ (∀ (st : JournalDetailState) (r : OAIValidationResponse),
      (JournalDetailComponent.applyOaiNext st r).journal = st.journal
      ∧ (JournalDetailComponent.applyOaiNext st r).error = st.error)
    ∧ (∀ (st : JournalDetailState) (e : Option String),
      (JournalDetailComponent.applyOaiError st e).journal = st.journal
      ∧ (JournalDetailComponent.applyOaiError st e).error = st.error)
    ∧ (∀ r : OAIValidationResponse,
      (JournalDetailComponent.onValidateOaiNext r).oaiTestMessage =
        some (if r.detail = "" then
          (if r.ok then "Endpoint responded successfully."
           else "Endpoint did not respond with valid OAI.")
          else r.detail)
      ∧ (JournalDetailComponent.onValidateOaiNext r).oaiTestSuccess = some r.ok)
    ∧ (∀ e : Option String,
      (JournalDetailComponent.onValidateOaiError e).oaiTestSuccess = some false) := by
  refine ⟨fun _ => rfl, rfl, fun _ => rfl, ?_, ?_, fun _ _ => ⟨rfl, rfl⟩,
    fun _ _ => ⟨rfl, rfl⟩, fun _ => ⟨rfl, rfl⟩, fun _ => rfl⟩
  · intro st c
    unfold JournalDetailComponent.testOaiEndpoint
    split
    · exact Or.inl rfl
    · cases hj : st.journal with
      | none => exact Or.inl rfl
      | some j =>
        simp only [hj, Option.map_some']
        by_cases hu : jsTrim j.oai_url = ""
        · rw [if_pos hu]
          exact Or.inl rfl
        · rw [if_neg hu]
          exact Or.inr ⟨jsTrim j.oai_url, rfl⟩
  · intro st c
    unfold JournalDetailComponent.testOaiEndpoint
    split
    · exact ⟨rfl, rfl⟩
    · cases hj : st.journal with
      | none => exact ⟨rfl, rfl⟩
      | some j =>
        by_cases hu : jsTrim j.oai_url = "" <;> simp [hj, hu]

/-! ## Claim C6 -/

/-- C6: the combined payload metadata (core entries followed by additional
entries) receives consecutive positions 0, 1, 2, … in display order — hence
positions strictly increase in source order, in particular within every
(schema, element, qualifier) group — and a loaded publication's entries are
displayed sorted by ascending position. -/
theorem spec_C6_metadata_order (core meta : List PublicationMetadataPayload) (d : String)
    (entries : List PublicationMetadataEntry) :
    ((PublicationFormComponent.combinedEntries core meta d).map (fun e => e.position)
      = (List.range (core.length + meta.length)).map (fun i => some (Int.ofNat i)))
    ∧ ((PublicationFormComponent.combinedEntries core meta d).Pairwise
        (fun a b => a.position.getD 0 < b.position.getD 0))
    ∧ (PublicationFormComponent.setMetadataEntries entries).Perm entries
    ∧ (PublicationFormComponent.setMetadataEntries entries).Pairwise
        (fun a b => a.position ≤ b.position) := by
  have hlen : (PublicationFormComponent.combinedEntries core meta d).length
      = core.length + meta.length := by
    simp [PublicationFormComponent.combinedEntries, List.length_mapIdx]
  have hmap : (PublicationFormComponent.combinedEntries core meta d).map (fun e => e.position)
      = (List.range (core.length + meta.length)).map (fun i => some (Int.ofNat i)) := by
    apply List.ext_get
    · simp [hlen]
    · intro i h1 h2
      simp [PublicationFormComponent.combinedEntries, List.get_mapIdx]
  have hpos : ∀ (i : Nat) (h : i < (PublicationFormComponent.combinedEntries core meta d).length),
      ((PublicationFormComponent.combinedEntries core meta d).get ⟨i, h⟩).position
        = some (Int.ofNat i) := by
    intro i h
    have h1 : i < ((PublicationFormComponent.combinedEntries core meta d).map
        (fun e => e.position)).length := by simpa using h
    have step : ((PublicationFormComponent.combinedEntries core meta d).map
        (fun e => e.position)).get ⟨i, h1⟩ = some (Int.ofNat i) := by
      have h2 : i < ((List.range (core.length + meta.length)).map
          (fun i => some (Int.ofNat i))).length := by
        simpa [hlen] using h
      rw [List.get_of_eq hmap ⟨i, h1⟩]
      simp
    simpa using step
  refine ⟨hmap, ?_, List.mergeSort_perm entries _, ?_⟩
  · rw [List.pairwise_iff_get]
    intro i j hij
    rw [hpos i.1 i.2, hpos j.1 j.2]
    simpa using hij
  · have htrans : ∀ a b c : PublicationMetadataEntry,
        decide (a.position ≤ b.position) = true →
        decide (b.position ≤ c.position) = true →
        decide (a.position ≤ c.position) = true := by
      intro a b c hab hbc
      simp only [decide_eq_true_eq] at *
      exact le_trans hab hbc
    have htotal : ∀ a b : PublicationMetadataEntry,
        (decide (a.position ≤ b.position) || decide (b.position ≤ a.position)) = true := by
      intro a b
      simp only [Bool.or_eq_true, decide_eq_true_eq]
      exact le_total a.position b.position
    have hs := @List.sorted_mergeSort PublicationMetadataEntry
      (fun a b => decide (a.position ≤ b.position)) htrans htotal entries
    exact hs.imp (fun h => by simpa using h)

/-! ## Lemmas on integer ranges (for Claim C9) -/

theorem intRangeList_length (s : Int) (len : Nat) : (intRangeList s len).length = len := by
  simp [intRangeList]

theorem mem_intRangeList {x s : Int} {len : Nat} :
    x ∈ intRangeList s len ↔ s ≤ x ∧ x < s + len := by
  simp only [intRangeList, List.mem_map, List.mem_range]
  constructor
  · rintro ⟨i, hi, rfl⟩
    simp only [Int.ofNat_eq_coe]
    omega
  · rintro ⟨h1, h2⟩
    exact ⟨(x - s).toNat, by omega, by simp only [Int.ofNat_eq_coe]; omega⟩

theorem intRangeList_get (s : Int) (len : Nat) (i : Fin (intRangeList s len).length) :
    (intRangeList s len).get i = s + Int.ofNat (i : Nat) := by
  simp [intRangeList]

theorem chain_intRangeList (s : Int) (len : Nat) :
    List.Chain' (fun a b => b = a + 1) (intRangeList s len) := by
  rw [List.chain'_iff_get]
  intro i hi
  rw [intRangeList_get, intRangeList_get]
  simp only [Int.ofNat_eq_coe]
  omega

theorem pageNumbers_eq (total current : Int) :
    PublicationListComponent.pageNumbers total current =
      if total ≤ 7 then intRangeList 1 total.toNat
      else if current - 3 < 1 then intRangeList 1 7
      else if current + 3 > total then intRangeList (total - 6) 7
      else intRangeList (current - 3) 7 := by
  unfold PublicationListComponent.pageNumbers maxPageLinks
  by_cases h0 : total ≤ 7
  · simp [h0]
  · rw [if_neg h0, if_neg h0]
    dsimp only
    rw [show (7 : Int) / 2 = 3 from by decide]
    by_cases hA : current - 3 < 1
    · rw [if_pos hA, if_pos hA]
      dsimp only
      rw [if_neg (show ¬((1 : Int) + 7 - 1 > total) from by omega)]
      dsimp only
      rw [show ((1 : Int) + 7 - 1 - 1 + 1).toNat = 7 from by decide]
    · rw [if_neg hA, if_neg hA]
      dsimp only
      by_cases hB : current + 3 > total
      · rw [if_pos hB, if_pos hB]
        dsimp only
        rw [show ∀ t : Int, (t - (t - 7 + 1) + 1).toNat = 7 from fun t => by omega,
          show total - 7 + 1 = total - 6 from by ring]
      · rw [if_neg hB, if_neg hB]
        dsimp only
        rw [show (current + 3 - (current - 3) + 1).toNat = 7 from by omega]

/-! ## Claim C9 -/

/-- C9: with page size at least 1, the computed total page count is 1 for an
empty result set and the ceiling of count / page size otherwise; and for any
current page within range, the rendered page-link window is a contiguous
strictly increasing run of at most 7 pages, all within bounds, containing
the current page.  `HarvestLogListComponent` computes both signals by the
same functions. -/
theorem spec_C9_pagination_window :
    (∀ count pageSize : Int, 1 ≤ pageSize →
      PublicationListComponent.totalPages count pageSize
        = if count = 0 then 1 else Int.ceil ((count : ℚ) / (pageSize : ℚ)))
    ∧ (∀ total current : Int, 1 ≤ current → current ≤ total →
      (PublicationListComponent.pageNumbers total current).length ≤ 7
      ∧ current ∈ PublicationListComponent.pageNumbers total current
      ∧ (∀ x ∈ PublicationListComponent.pageNumbers total current, 1 ≤ x ∧ x ≤ total)
      ∧ List.Chain' (fun a b => b = a + 1) (PublicationListComponent.pageNumbers total current))
    ∧ HarvestLogListComponent.totalPages = PublicationListComponent.totalPages
    ∧ HarvestLogListComponent.pageNumbers = PublicationListComponent.pageNumbers := by
  refine ⟨?_, ?_, rfl, rfl⟩
  · intro count pageSize h
    unfold PublicationListComponent.totalPages
    rw [max_eq_right h]
  · intro total current h1 h2
    rw [pageNumbers_eq]
    by_cases h0 : total ≤ 7
    · rw [if_pos h0]
      refine ⟨?_, ?_, ?_, chain_intRangeList 1 total.toNat⟩
      · rw [intRangeList_length]
        omega
      · rw [mem_intRangeList]
        omega
      · intro x hx
        rw [mem_intRangeList] at hx
        omega
    · rw [if_neg h0]
      by_cases hA : current - 3 < 1
      · rw [if_pos hA]
        refine ⟨?_, ?_, ?_, chain_intRangeList 1 7⟩
        · rw [intRangeList_length]
        · rw [mem_intRangeList]
          omega
        · intro x hx
          rw [mem_intRangeList] at hx
          omega
      · rw [if_neg hA]
        by_cases hB : current + 3 > total
        · rw [if_pos hB]
          refine ⟨?_, ?_, ?_, chain_intRangeList (total - 6) 7⟩
          · rw [intRangeList_length]
          · rw [mem_intRangeList]
            omega
          · intro x hx
            rw [mem_intRangeList] at hx
            omega
        · rw [if_neg hB]
          refine ⟨?_, ?_, ?_, chain_intRangeList (current - 3) 7⟩
          · rw [intRangeList_length]
          · rw [mem_intRangeList]
            omega
          · intro x hx
            rw [mem_intRangeList] at hx
            omega

/-- C9 witness: the total-pages formula at count 25 and page size 10, and
the page window at 20 total pages with current page 5. -/
theorem spec_C9_pagination_window_witness :
    ((1 : Int) ≤ 10
      ∧ PublicationListComponent.totalPages 25 10
          = if (25 : Int) = 0 then 1 else Int.ceil ((25 : ℚ) / (10 : ℚ)))
    ∧ ((1 : Int) ≤ 5 ∧ (5 : Int) ≤ 20
      ∧ (5 : Int) ∈ PublicationListComponent.pageNumbers 20 5) :=
  ⟨⟨by norm_num, spec_C9_pagination_window.1 25 10 (by norm_num)⟩,
   by norm_num, by norm_num,
   (spec_C9_pagination_window.2.1 20 5 (by norm_num) (by norm_num)).2.1⟩

/-! ## Lemmas on split / trim / join (for Claim C10) -/

theorem splitOnCommaChars_ne_nil (l : List Char) : splitOnCommaChars l ≠ [] := by
  cases l with
  | nil => simp [splitOnCommaChars]
  | cons c rest =>
    unfold splitOnCommaChars
    cases h : splitOnCommaChars rest with
    | nil => simp
    | cons cur more =>
      by_cases hc : c = ',' <;> simp [hc]

theorem splitOnCommaChars_no_comma (a : List Char) (h : ',' ∉ a) :
    splitOnCommaChars a = [a] := by
  induction a with
  | nil => rfl
  | cons c rest ih =>
    have hc : ¬c = ',' := fun hc => h (hc ▸ List.mem_cons_self c rest)
    have hr : ',' ∉ rest := fun hr => h (List.mem_cons_of_mem c hr)
    unfold splitOnCommaChars
    rw [ih hr]
    simp [hc]

theorem splitOnCommaChars_append (a b : List Char) (h : ',' ∉ a) :
    splitOnCommaChars (a ++ ',' :: b) = a :: splitOnCommaChars b := by
  induction a with
  | nil =>
    rw [List.nil_append]
    cases hb : splitOnCommaChars b with
    | nil => exact absurd hb (splitOnCommaChars_ne_nil b)
    | cons cur more =>
      conv_lhs => rw [splitOnCommaChars]
      rw [hb]
      simp
  | cons c rest ih =>
    have hc : ¬c = ',' := fun hc => h (hc ▸ List.mem_cons_self c rest)
    have hr : ',' ∉ rest := fun hr => h (List.mem_cons_of_mem c hr)
    rw [List.cons_append]
    conv_lhs => rw [splitOnCommaChars]
    rw [ih hr]
    simp [hc]

theorem splitOnCommaChars_cons_not_comma (c : Char) (l : List Char) (hc : ¬c = ',') :
    ∃ cur more, splitOnCommaChars l = cur :: more
      ∧ splitOnCommaChars (c :: l) = (c :: cur) :: more := by
  cases h : splitOnCommaChars l with
  | nil => exact absurd h (splitOnCommaChars_ne_nil l)
  | cons cur more =>
    refine ⟨cur, more, rfl, ?_⟩
    unfold splitOnCommaChars
    rw [h]
    simp [hc]

theorem trimChars_cons_space (s : List Char) : trimChars (' ' :: s) = trimChars s := by
  rw [trimChars, trimChars, List.dropWhile_cons, if_pos]
  simp [isJsWhitespace]

theorem map_trim_split_cons_space (l : List Char) :
    (splitOnCommaChars (' ' :: l)).map trimChars = (splitOnCommaChars l).map trimChars := by
  obtain ⟨cur, more, h1, h2⟩ := splitOnCommaChars_cons_not_comma ' ' l (by decide)
  rw [h1, h2, List.map_cons, List.map_cons, trimChars_cons_space]

theorem parse_join_chars (subjects : List (List Char))
    (h : ∀ s ∈ subjects, s ≠ [] ∧ trimChars s = s ∧ ',' ∉ s) :
    ((splitOnCommaChars (joinSubjectsChars subjects)).map trimChars).filter
      (fun e => e ≠ []) = subjects := by
  induction subjects with
  | nil => decide
  | cons s rest ih =>
    obtain ⟨hne, htrim, hcomma⟩ := h s (List.mem_cons_self s rest)
    cases rest with
    | nil =>
      rw [joinSubjectsChars, splitOnCommaChars_no_comma s hcomma]
      simp [htrim, hne]
    | cons s2 t =>
      have hrest := ih (fun x hx => h x (List.mem_cons_of_mem s hx))
      show ((splitOnCommaChars (s ++ ',' :: ' ' :: joinSubjectsChars (s2 :: t))).map
          trimChars).filter (fun e => e ≠ []) = s :: s2 :: t
      rw [splitOnCommaChars_append s _ hcomma, List.map_cons,
        map_trim_split_cons_space, htrim, List.filter_cons]
      rw [if_pos (by simpa using hne)]
      rw [hrest]

/-! ## Claim C10 -/

/-- C10: for subject terms that are non-empty, trim-stable and comma-free,
joining them with ", " into the single `subject` query parameter and parsing
that parameter back (split on commas, trim, drop empties) recovers exactly
the original list. -/
theorem spec_C10_subject_round_trip (subjects : List String)
    (h : ∀ s ∈ subjects, s ≠ "" ∧ jsTrim s = s ∧ ',' ∉ s.data) :
    PublicationListComponent.parseSubjectParam
      (some (PublicationListComponent.joinSubjects subjects)) = subjects := by
  have hmk : ∀ t : String, String.mk t.data = t := fun t => rfl
  have hchars : ∀ l ∈ subjects.map String.data, l ≠ [] ∧ trimChars l = l ∧ ',' ∉ l := by
    intro l hl
    obtain ⟨t, ht, rfl⟩ := List.mem_map.mp hl
    obtain ⟨h1, h2, h3⟩ := h t ht
    refine ⟨?_, ?_, h3⟩
    · intro hnil
      exact h1 (by rw [← hmk t, hnil])
    · have := congrArg String.data h2
      simpa [jsTrim] using this
  cases subjects with
  | nil => rfl
  | cons s rest =>
    obtain ⟨hs1, _, _⟩ := h s (List.mem_cons_self s rest)
    have hsd : s.data ≠ [] := by
      intro hnil
      exact hs1 (by rw [← hmk s, hnil])
    have hjoin_ne : joinSubjectsChars ((s :: rest).map String.data) ≠ [] := by
      cases rest with
      | nil => simpa [joinSubjectsChars] using hsd
      | cons s2 t => simp [joinSubjectsChars, hsd]
    have hne : ¬(String.mk (joinSubjectsChars ((s :: rest).map String.data)) = "") := by
      intro heq
      exact hjoin_ne (congrArg String.data heq)
    have hcore := parse_join_chars ((s :: rest).map String.data) hchars
    rw [PublicationListComponent.joinSubjects, PublicationListComponent.parseSubjectParam,
      if_neg hne]
    dsimp only
    rw [hcore, List.map_map]
    rw [show String.mk ∘ String.data = id from funext hmk, List.map_id]

/-- C10 witness: the round trip at the concrete subject list
["soil", "maize breeding"]. -/
theorem spec_C10_subject_round_trip_witness :
    (∀ s ∈ (["soil", "maize breeding"] : List String),
      s ≠ "" ∧ jsTrim s = s ∧ ',' ∉ s.data)
    ∧ PublicationListComponent.parseSubjectParam
        (some (PublicationListComponent.joinSubjects ["soil", "maize breeding"]))
      = ["soil", "maize breeding"] :=
  ⟨by decide, spec_C10_subject_round_trip ["soil", "maize breeding"] (by decide)⟩

/-! ## Congruence of parameter chains (for Claims C1 and C7) -/

theorem Params.valuesOf_set_congr {ps1 ps2 : Params} {k : String} (k' v : String)
    (h : ps1.valuesOf k = ps2.valuesOf k) :
    (ps1.set k' v).valuesOf k = (ps2.set k' v).valuesOf k := by
  rw [Params.valuesOf_set, Params.valuesOf_set, h]

theorem Params.valuesOf_setIfTruthy_congr {ps1 ps2 : Params} {k : String} (k' : String)
    (v : Option String) (h : ps1.valuesOf k = ps2.valuesOf k) :
    (ps1.setIfTruthy k' v).valuesOf k = (ps2.setIfTruthy k' v).valuesOf k := by
  rw [Params.valuesOf_setIfTruthy, Params.valuesOf_setIfTruthy, h]

theorem Params.valuesOf_setIfPos_congr {ps1 ps2 : Params} {k : String} (k' : String)
    (v : Option Int) (h : ps1.valuesOf k = ps2.valuesOf k) :
    (ps1.setIfPos k' v).valuesOf k = (ps2.setIfPos k' v).valuesOf k := by
  rw [Params.valuesOf_setIfPos, Params.valuesOf_setIfPos, h]

theorem Params.valuesOf_setJournalOrId_congr {ps1 ps2 : Params} {k : String}
    (slug : Option String) (jid : Option Int) (h : ps1.valuesOf k = ps2.valuesOf k) :
    (ps1.setJournalOrId slug jid).valuesOf k = (ps2.setJournalOrId slug jid).valuesOf k := by
  cases slug with
  | none =>
    cases jid with
    | none => simpa [Params.setJournalOrId] using h
    | some j => simp [Params.setJournalOrId, Params.valuesOf_set, h]
  | some s =>
    by_cases hs : s = ""
    · cases jid with
      | none => simpa [Params.setJournalOrId, hs] using h
      | some j => simp [Params.setJournalOrId, hs, Params.valuesOf_set, h]
    · simp [Params.setJournalOrId, hs, Params.valuesOf_set, h]

theorem Params.valuesOf_appendAuthors_congr {ps1 ps2 : Params} {k : String}
    (authors : Option (List String)) (h : ps1.valuesOf k = ps2.valuesOf k) :
    (ps1.appendAuthors authors).valuesOf k = (ps2.appendAuthors authors).valuesOf k := by
  rw [Params.valuesOf_appendAuthors, Params.valuesOf_appendAuthors, h]

theorem Params.valuesOf_appendIssuedYears_congr {ps1 ps2 : Params} {k : String}
    (ys : Option (List NumOrStr)) (h : ps1.valuesOf k = ps2.valuesOf k) :
    (ps1.appendIssuedYears ys).valuesOf k = (ps2.appendIssuedYears ys).valuesOf k := by
  rw [Params.valuesOf_appendIssuedYears, Params.valuesOf_appendIssuedYears, h]

/-- Outside the `search` key, the facet parameter builder produces the same
bindings as the relational list request. -/
theorem buildFacetParams_valuesOf_eq_list (o : PublicationListOptions) (k : String)
    (hk : ¬k = "search") :
    (PublicationApiService.buildFacetParams o).valuesOf k
      = (PublicationApiService.list o).params.valuesOf k := by
  unfold PublicationApiService.buildFacetParams PublicationApiService.list
  dsimp only
  apply Params.valuesOf_appendIssuedYears_congr
  apply Params.valuesOf_appendAuthors_congr
  apply Params.valuesOf_setIfTruthy_congr
  apply Params.valuesOf_setIfTruthy_congr
  apply Params.valuesOf_setIfTruthy_congr
  apply Params.valuesOf_setIfTruthy_congr
  apply Params.valuesOf_setJournalOrId_congr
  apply Params.valuesOf_setIfPos_congr
  rw [Params.valuesOf_setIfTruthy, if_neg (fun hs => hk hs.symm)]

/-! ## Claim C7 -/

/-- C7: every facet-only request is scoped to exactly one of the four facet
dimensions, carries the same structured filters as the list request (all
keys other than the free-text ones), and decodes to the
`FacetListResponse` envelope whose items are exactly
`\x7bvalue, label, count, active\x7d`. -/
theorem spec_C7_facet_requests (mode : SearchMode) (term : String) (facetKey : FacetRouteKey)
    (o : PublicationListOptions) :
    ((PublicationFacetListComponent.fetchFacetRequest mode term facetKey o).endpoint.facetDim
      = some facetKey.toName)
    ∧ (facetKey.toName = "authors" ∨ facetKey.toName = "subjects"
      ∨ facetKey.toName = "journals" ∨ facetKey.toName = "issued_years")
    ∧ ((PublicationFacetListComponent.fetchFacetRequest mode term facetKey o).shape
      = ResponseShape.facetList)
    ∧ (∀ k : String, ¬k = "search" → ¬k = "q" →
      (PublicationFacetListComponent.fetchFacetRequest mode term facetKey o).params.valuesOf k
        = (PublicationApiService.list o).params.valuesOf k)
    ∧ ResponseShape.facetList.decodesTo = FacetListResponse
    ∧ (∀ r : FacetListResponse,
      r = { count := r.count, page := r.page, page_size := r.page_size,
            total_pages := r.total_pages, next := r.next, previous := r.previous,
            param := r.param, results := r.results })
    ∧ (∀ it : FacetItem,
      it = { value := it.value, label := it.label, count := it.count, active := it.active }) := by
  refine ⟨?_, ?_, ?_, ?_, rfl, fun _ => rfl, fun _ => rfl⟩
  · unfold PublicationFacetListComponent.fetchFacetRequest
    split <;> rfl
  · cases facetKey
    · exact Or.inl rfl
    · exact Or.inr (Or.inl rfl)
    · exact Or.inr (Or.inr (Or.inl rfl))
    · exact Or.inr (Or.inr (Or.inr rfl))
  · unfold PublicationFacetListComponent.fetchFacetRequest
    split <;> rfl
  · intro k hk1 hk2
    unfold PublicationFacetListComponent.fetchFacetRequest
    split
    · show ((PublicationApiService.buildFacetParams
          { o with search := none }).set "q" term).valuesOf k
        = (PublicationApiService.list o).params.valuesOf k
      rw [Params.valuesOf_set, if_neg (fun hq => hk2 hq.symm)]
      exact buildFacetParams_valuesOf_eq_list o k hk1
    · exact buildFacetParams_valuesOf_eq_list o k hk1

/-- C7 witness: the structured `journal` filter of the authors facet request
coincides with the list request's, at the empty option set. -/
theorem spec_C7_facet_requests_witness :
    (¬"journal" = "search" ∧ ¬"journal" = "q")
    ∧ (PublicationFacetListComponent.fetchFacetRequest SearchMode.default ""
        FacetRouteKey.authors {}).params.valuesOf "journal"
      = (PublicationApiService.list {}).params.valuesOf "journal" :=
  ⟨⟨by decide, by decide⟩,
   (spec_C7_facet_requests SearchMode.default "" FacetRouteKey.authors {}).2.2.2.1 "journal"
     (by decide) (by decide)⟩

/-! ## Claim C1 -/

theorem String.length_pos_iff_ne_empty (s : String) : 0 < s.length ↔ ¬s = "" := by
  cases s with
  | mk data =>
    rw [show (String.mk data).length = data.length from rfl]
    rw [String.ext_iff]
    exact List.length_pos

theorem list_valuesOf_search (o : PublicationListOptions) :
    (PublicationApiService.list o).params.valuesOf "search" =
      (match o.search with
        | some s => if s = "" then [] else [s]
        | none => []) := by
  unfold PublicationApiService.list
  dsimp only
  rw [Params.valuesOf_appendIssuedYears, Params.valuesOf_appendAuthors]
  rw [Params.valuesOf_setIfTruthy, Params.valuesOf_setIfTruthy, Params.valuesOf_setIfTruthy,
    Params.valuesOf_setIfTruthy]
  rw [Params.valuesOf_setJournalOrId _ _ _ _ (by decide) (by decide)]
  rw [Params.valuesOf_setIfPos, Params.valuesOf_setIfTruthy, Params.valuesOf_set]
  cases o.search with
  | none => simp
  | some s => by_cases hs : s = "" <;> simp [hs]

theorem search_valuesOf_q (q : String) (o : PublicationListOptions) :
    (PublicationApiService.search q o).params.valuesOf "q" = [q] := by
  unfold PublicationApiService.search
  dsimp only
  rw [Params.valuesOf_appendIssuedYears, Params.valuesOf_appendAuthors]
  rw [Params.valuesOf_setIfTruthy, Params.valuesOf_setIfTruthy, Params.valuesOf_setIfTruthy,
    Params.valuesOf_setIfTruthy, Params.valuesOf_setIfTruthy]
  rw [Params.valuesOf_setIfPos, Params.valuesOf_set]
  simp

/-- C1: the external-index search endpoint is queried exactly when a
non-empty trimmed query is present and no structured filter (journal,
issued_from, issued_to, ordering, subject, author, issued_year) is set;
every other request goes to the relational list endpoint, carrying the query
term (when present) as a plain `search` parameter. -/
theorem spec_C1_backend_dispatch (st : PubListState) :
    ((PublicationListComponent.fetchRequest st).endpoint = Endpoint.publicationsSearch
      ↔ (¬jsTrim st.searchQuery = "" ∧ PublicationListComponent.hasAdditionalFilters st = false))
    ∧ ((PublicationListComponent.fetchRequest st).endpoint = Endpoint.publicationsSearch
      ∨ (PublicationListComponent.fetchRequest st).endpoint = Endpoint.publications)
    ∧ ((PublicationListComponent.fetchRequest st).endpoint = Endpoint.publications →
      (PublicationListComponent.fetchRequest st).params.valuesOf "search"
        = if jsTrim st.searchQuery = "" then [] else [jsTrim st.searchQuery])
    ∧ ((PublicationListComponent.fetchRequest st).endpoint = Endpoint.publicationsSearch →
      (PublicationListComponent.fetchRequest st).params.valuesOf "q" = [jsTrim st.searchQuery]) := by
  unfold PublicationListComponent.fetchRequest
  dsimp only
  by_cases hS : 0 < (jsTrim st.searchQuery).length <;>
    by_cases hF : PublicationListComponent.hasAdditionalFilters st = true
  · rw [if_neg (by simp [hS, hF])]
    have hne := (String.length_pos_iff_ne_empty (jsTrim st.searchQuery)).mp hS
    refine ⟨?_, Or.inr rfl, ?_, ?_⟩
    · simp only [show (PublicationApiService.list _).endpoint = Endpoint.publications from rfl]
      constructor
      · intro h
        exact Endpoint.noConfusion h
      · rintro ⟨-, h2⟩
        exact absurd hF (by simp [h2])
    · intro _
      rw [list_valuesOf_search]
      simp [hS, if_neg hne]
    · intro h
      exact Endpoint.noConfusion h
  · rw [if_pos (by simp [hS, hF])]
    have hne := (String.length_pos_iff_ne_empty (jsTrim st.searchQuery)).mp hS
    refine ⟨?_, Or.inl rfl, ?_, ?_⟩
    · simp only [show (PublicationApiService.search _ _).endpoint = Endpoint.publicationsSearch from rfl]
      simp [hne, hF]
    · intro h
      exact Endpoint.noConfusion h
    · intro _
      exact search_valuesOf_q _ _
  · rw [if_neg (by simp [hS])]
    have heq : jsTrim st.searchQuery = "" := by
      by_contra hc
      exact hS ((String.length_pos_iff_ne_empty (jsTrim st.searchQuery)).mpr hc)
    refine ⟨?_, Or.inr rfl, ?_, ?_⟩
    · constructor
      · intro h
        exact Endpoint.noConfusion h
      · rintro ⟨h1, -⟩
        exact absurd heq h1
    · intro _
      rw [list_valuesOf_search]
      simp [hS, if_pos heq]
    · intro h
      exact Endpoint.noConfusion h
  · rw [if_neg (by simp [hS])]
    have heq : jsTrim st.searchQuery = "" := by
      by_contra hc
      exact hS ((String.length_pos_iff_ne_empty (jsTrim st.searchQuery)).mpr hc)
    refine ⟨?_, Or.inr rfl, ?_, ?_⟩
    · constructor
      · intro h
        exact Endpoint.noConfusion h
      · rintro ⟨h1, -⟩
        exact absurd heq h1
    · intro _
      rw [list_valuesOf_search]
      simp [hS, if_pos heq]
    · intro h
      exact Endpoint.noConfusion h

/-- C1 witness: Scenario C — search "maize" combined with issued_year 2020
is served by the relational endpoint with the plain `search` parameter. -/
theorem spec_C1_backend_dispatch_witness :
    (PublicationListComponent.fetchRequest
        { searchQuery := "maize", issuedYearFilters := ["2020"] }).endpoint
      = Endpoint.publications
    ∧ (PublicationListComponent.fetchRequest
        { searchQuery := "maize", issuedYearFilters := ["2020"] }).params.valuesOf "search"
      = if jsTrim "maize" = "" then [] else [jsTrim "maize"] := by
  have h := spec_C1_backend_dispatch { searchQuery := "maize", issuedYearFilters := ["2020"] }
  have hend : (PublicationListComponent.fetchRequest
      { searchQuery := "maize", issuedYearFilters := ["2020"] }).endpoint
      = Endpoint.publications := by decide
  exact ⟨hend, h.2.2.1 hend⟩

/-! ## Claim C3 -/

/-- C3 counterexample: for the concrete search-only request "maize", the
request goes to the external-index endpoint, and when that request fails
with HTTP 503 (index unavailable while the relational store is reachable)
the error callback issues no fallback request at all — it clears the results
and sets an error message, so the caller does not "still receive results". -/
theorem spec_C3_counterexample :
    (PublicationListComponent.fetchRequest { searchQuery := "maize" }).endpoint
      = Endpoint.publicationsSearch
    ∧ ¬(∃ req, (PublicationListComponent.fetchOnError { searchQuery := "maize" }
        (some 503) none).followUpRequest = some req)
    ∧ (PublicationListComponent.fetchOnError { searchQuery := "maize" }
        (some 503) none).publications = []
    ∧ (PublicationListComponent.fetchOnError { searchQuery := "maize" }
        (some 503) none).count = 0
    ∧ (PublicationListComponent.fetchOnError { searchQuery := "maize" }
        (some 503) none).error
      = some "Search is temporarily unavailable. Please try again later." := by
  refine ⟨by decide, ?_, rfl, rfl, by decide⟩
  rintro ⟨req, hreq⟩
  exact Option.noConfusion hreq

/-- C3 amended: when only the index is unavailable (the search-endpoint
request fails with status 503), the caller does not fall back to relational
filtering; it surfaces the dedicated message "Search is temporarily
unavailable. Please try again later." with an empty result set, and the
error callback never issues a follow-up request. -/
theorem spec_C3_index_unavailable_behavior (st : PubListState) (errDetail : Option String)
    (h1 : ¬jsTrim st.searchQuery = "")
    (h2 : PublicationListComponent.hasAdditionalFilters st = false) :
    PublicationListComponent.fetchOnError st (some 503) errDetail =
      { loading := false, facets := none, count := 0, publications := [],
        error := some "Search is temporarily unavailable. Please try again later.",
        followUpRequest := none }
    ∧ (∀ (status : Option Int) (d : Option String),
      (PublicationListComponent.fetchOnError st status d).followUpRequest = none) := by
  constructor
  · unfold PublicationListComponent.fetchOnError
    dsimp only
    have hS : (0 < (jsTrim st.searchQuery).length) = True := by
      simp [String.length_pos_iff_ne_empty, h1]
    rw [if_pos (by simp [hS, h2])]
  · intro status d
    rfl

/-- C3 amended-claim witness: the behavior at the concrete search-only
request "maize" failing with 503. -/
theorem spec_C3_index_unavailable_behavior_witness :
    (¬jsTrim ("maize" : String) = ""
      ∧ PublicationListComponent.hasAdditionalFilters { searchQuery := "maize" } = false)
    ∧ PublicationListComponent.fetchOnError { searchQuery := "maize" } (some 503) none =
      { loading := false, facets := none, count := 0, publications := [],
        error := some "Search is temporarily unavailable. Please try again later.",
        followUpRequest := none } :=
  ⟨⟨by decide, by decide⟩,
   (spec_C3_index_unavailable_behavior { searchQuery := "maize" } none
     (by decide) (by decide)).1⟩
